import Mathlib

/-!
Shallow embedding of the `lambdas` Python library (`lambdas/__init__.py`).

The library provides a placeholder object `_` (class `_Callable`).  Applying
`&` or `|` to it builds a `_Chain` of `_Operation` nodes (with precedence
metadata used by `__repr__`), while the seven arithmetic operators build a
mutable `_MathExpression` accumulating a list of unary steps.

Python values flowing through `&` / `|` chains are modelled by `PyVal`:
integers, strings, and user objects.  A user object is an opaque id; an
environment (`Env`) assigns to each id its `repr` string and its
`__and__` / `__rand__` / `__or__` / `__ror__` methods, each a function
returning `none` for Python's `NotImplemented` (the method declines the
argument's type) and `some v` for a successful result.  `PyVal.exprObj`
stands for an expression object (the placeholder or a chain) appearing as
the *argument* of another object's operator method — this happens during
construction, when Python first offers the expression to the other
operand's own method before falling back to the expression's reflected
method.  Expression objects define no value-level `__and__` of their own
(their operator methods build chains, handled separately below), so as
plain data they decline.
-/

/-- A Python value appearing as operand or input of an `&` / `|` chain. -/
inductive PyVal where
  | int (n : Int)
  | str (s : String)
  | obj (id : Nat)
  | exprObj
  deriving DecidableEq

/-- Behaviour of a user object: its `repr` and its four operator methods
(`none` models `NotImplemented`). -/
structure ObjImpl where
  rep : String
  andM : PyVal → Option PyVal
  randM : PyVal → Option PyVal
  orM : PyVal → Option PyVal
  rorM : PyVal → Option PyVal

/-- Assignment of behaviour to every object id. -/
def Env : Type := Nat → ObjImpl

/-- An environment whose objects decline every operand. -/
def defaultEnv : Env :=
  fun _ => ⟨"obj", fun _ => none, fun _ => none, fun _ => none, fun _ => none⟩

/-- `repr` of a value: Python's integer and (unescaped) string forms, the
object's declared `rep`, and `_` for an expression object. -/
def PyVal.reprStr (env : Env) : PyVal → String
  | .int n => toString n
  | .str s => "'" ++ s ++ "'"
  | .obj i => (env i).rep
  | .exprObj => "_"

/-- The `__and__` method of a value: `int.__and__` is bitwise and on
integers (declining anything else), strings and expression objects have
none, objects use the environment. -/
def andMeth (env : Env) : PyVal → PyVal → Option PyVal
  | .int a, .int b => some (.int (Int.land a b))
  | .int _, _ => none
  | .str _, _ => none
  | .obj i, b => (env i).andM b
  | .exprObj, _ => none

/-- The `__rand__` method of a value. -/
def randMeth (env : Env) : PyVal → PyVal → Option PyVal
  | .int a, .int b => some (.int (Int.land b a))
  | .int _, _ => none
  | .str _, _ => none
  | .obj i, b => (env i).randM b
  | .exprObj, _ => none

/-- The `__or__` method of a value: `int.__or__` is bitwise or. -/
def orMeth (env : Env) : PyVal → PyVal → Option PyVal
  | .int a, .int b => some (.int (Int.lor a b))
  | .int _, _ => none
  | .str _, _ => none
  | .obj i, b => (env i).orM b
  | .exprObj, _ => none

/-- The `__ror__` method of a value. -/
def rorMeth (env : Env) : PyVal → PyVal → Option PyVal
  | .int a, .int b => some (.int (Int.lor b a))
  | .int _, _ => none
  | .str _, _ => none
  | .obj i, b => (env i).rorM b
  | .exprObj, _ => none

/-- Python's evaluation of `a & b` between plain values: try `a.__and__(b)`,
fall back to `b.__rand__(a)`, `none` when both decline (Python raises
`TypeError` then). -/
def pyAnd (env : Env) (a b : PyVal) : Option PyVal :=
  match andMeth env a b with
  | some v => some v
  | none => randMeth env b a

/-- Python's evaluation of `a | b` between plain values. -/
def pyOr (env : Env) (a b : PyVal) : Option PyVal :=
  match orMeth env a b with
  | some v => some v
  | none => rorMeth env b a

/-- Error taxonomy of the specification: `ArityError` (wrong number of call
arguments), `EmptyExpressionError` (calling a `_MathExpression` with no
recorded operations, a `ValueError` in the source), `UnsupportedOperation`
(both operands decline a replayed operator, a `TypeError` in the source),
plus Python's `ZeroDivisionError` for the arithmetic operators and a marker
for results the exact-rational float model cannot represent (irrational
powers; no claim exercises these). -/
inductive PyErr where
  | arityError
  | emptyExpressionError
  | unsupportedOperation
  | zeroDivisionError
  | unrepresentable
  deriving DecidableEq

/-- The four `_Operation` variants for `&` / `|`: `_SomethingAnd` is
`<operand> & <argument>`, `_AndSomething` is `<argument> & <operand>`,
`_SomethingOr` is `<operand> | <argument>`, `_OrSomething` is
`<argument> | <operand>`.  Each closes over the one fixed operand. -/
inductive Operation where
  | somethingAnd (operand : PyVal)
  | andSomething (operand : PyVal)
  | somethingOr (operand : PyVal)
  | orSomething (operand : PyVal)
  deriving DecidableEq

/-- `precedence`: 8 for the `&` variants, 10 for the `|` variants
(lower number = binds tighter, per the Python operator-precedence table). -/
def Operation.precedence : Operation → Nat
  | .somethingAnd _ => 8
  | .andSomething _ => 8
  | .somethingOr _ => 10
  | .orSomething _ => 10

/-- `_Operation.__call__`: apply the operation to the live input, applying
the fixed operand on its captured side; a `none` dispatch is the
`UnsupportedOperation` (`TypeError`) case. -/
def Operation.call (env : Env) : Operation → PyVal → Except PyErr PyVal
  | .somethingAnd operand, arg =>
      match pyAnd env operand arg with
      | some v => .ok v
      | none => .error .unsupportedOperation
  | .andSomething operand, arg =>
      match pyAnd env arg operand with
      | some v => .ok v
      | none => .error .unsupportedOperation
  | .somethingOr operand, arg =>
      match pyOr env operand arg with
      | some v => .ok v
      | none => .error .unsupportedOperation
  | .orSomething operand, arg =>
      match pyOr env arg operand with
      | some v => .ok v
      | none => .error .unsupportedOperation

/-- `_Operation.as_string`: visual form given the inner text, e.g.
`'{0.operand!r} & {1}'` for `_SomethingAnd`. -/
def Operation.asString (env : Env) : Operation → String → String
  | .somethingAnd operand, inner => PyVal.reprStr env operand ++ " & " ++ inner
  | .andSomething operand, inner => inner ++ " & " ++ PyVal.reprStr env operand
  | .somethingOr operand, inner => PyVal.reprStr env operand ++ " | " ++ inner
  | .orSomething operand, inner => inner ++ " | " ++ PyVal.reprStr env operand

/-- An `_Expression`: either the placeholder `_Callable` (the identity) or a
`_Chain` of a previous expression plus one trailing operation. -/
inductive Expression where
  | callable
  | chain (previous : Expression) (operation : Operation)
  deriving DecidableEq

/-- `__precedence__`: 0 for the placeholder (atomic), the trailing
operation's precedence for a chain. -/
def Expression.precedence : Expression → Nat
  | .callable => 0
  | .chain _ operation => operation.precedence

/-- Calling an expression with one argument: the placeholder returns the
argument unchanged (`_Callable.__call__`), a chain applies its previous
expression and then its operation (`_Chain.__call__`), propagating errors. -/
def Expression.call (env : Env) : Expression → PyVal → Except PyErr PyVal
  | .callable, arg => .ok arg
  | .chain previous operation, arg =>
      (previous.call env arg).bind (operation.call env)

/-- `__repr__`: `'_'` for the placeholder; for a chain, the operation's
string built from the previous expression's form, parenthesized unless the
previous precedence is numerically ≤ the operation's. -/
def Expression.reprStr (env : Env) : Expression → String
  | .callable => "_"
  | .chain previous operation =>
      operation.asString env
        (if previous.precedence ≤ operation.precedence
         then previous.reprStr env
         else "(" ++ previous.reprStr env ++ ")")

/-- `_Expression.__and__(other)` = `_Chain(self, _AndSomething(other))`. -/
def Expression.and (e : Expression) (other : PyVal) : Expression :=
  .chain e (.andSomething other)

/-- `_Expression.__rand__(other)` = `_Chain(self, _SomethingAnd(other))`. -/
def Expression.rand (e : Expression) (other : PyVal) : Expression :=
  .chain e (.somethingAnd other)

/-- `_Expression.__or__(other)` = `_Chain(self, _OrSomething(other))`. -/
def Expression.or (e : Expression) (other : PyVal) : Expression :=
  .chain e (.orSomething other)

/-- `_Expression.__ror__(other)` = `_Chain(self, _SomethingOr(other))`. -/
def Expression.ror (e : Expression) (other : PyVal) : Expression :=
  .chain e (.somethingOr other)

/-- Python's evaluation of `L & e` where `L` is a plain value and `e` an
expression object: `L.__and__` is offered the expression object first; if it
produces a value the result is that value (`inl`), otherwise Python falls
back to `e.__rand__(L)`, which builds the chain (`inr`). -/
def pyAndVE (env : Env) (L : PyVal) (e : Expression) : PyVal ⊕ Expression :=
  match andMeth env L .exprObj with
  | some v => .inl v
  | none => .inr (e.rand L)

/-- Python's evaluation of `L | e` where `L` is a plain value and `e` an
expression object. -/
def pyOrVE (env : Env) (L : PyVal) (e : Expression) : PyVal ⊕ Expression :=
  match orMeth env L .exprObj with
  | some v => .inl v
  | none => .inr (e.ror L)

/-- Python's call protocol for `def __call__(self, __arg)`: a call with any
number of arguments other than one is rejected (`TypeError` in Python, the
specification's `ArityError`). -/
def Expression.callArgs (env : Env) (e : Expression) (args : List PyVal) :
    Except PyErr PyVal :=
  match args with
  | [arg] => e.call env arg
  | _ => .error .arityError

example : Expression.call defaultEnv
    (((Expression.callable.rand (.int 60)).and (.int 5)).and (.int 7))
    (.int 7) = .ok (.int 4) := rfl

example : Expression.reprStr defaultEnv
    (((Expression.callable.ror (.int 9)).and (.int 6)).and (.int 7)) =
    "(9 | _) & 6 & 7" := rfl

/-!
Arithmetic side (`_MathExpression`).  Python numbers are modelled exactly:
an `int` as `Int`, a `float` as `Rat` (an exact-value model of IEEE floats;
every float arising in the claims is produced by exact operations, where the
two agree).  Operators follow Python semantics: `/` always yields a float,
`//` and `%` are floor division and its remainder (sign of the divisor),
mixed int/float operations promote to float, division by zero raises.
-/

/-- A Python number: `int` or `float` (exact-rational model). -/
inductive PyNum where
  | int (n : Int)
  | float (q : Rat)
  deriving DecidableEq

/-- The rational magnitude of a number. -/
def PyNum.toQ : PyNum → Rat
  | .int n => (n : Rat)
  | .float q => q

/-- `operator.add`: int + int stays int, otherwise float. -/
def pyAdd : PyNum → PyNum → Except PyErr PyNum
  | .int a, .int b => .ok (.int (a + b))
  | a, b => .ok (.float (a.toQ + b.toQ))

/-- `operator.sub`. -/
def pySub : PyNum → PyNum → Except PyErr PyNum
  | .int a, .int b => .ok (.int (a - b))
  | a, b => .ok (.float (a.toQ - b.toQ))

/-- `operator.mul`. -/
def pyMul : PyNum → PyNum → Except PyErr PyNum
  | .int a, .int b => .ok (.int (a * b))
  | a, b => .ok (.float (a.toQ * b.toQ))

/-- `operator.truediv`: always a float; zero divisor raises. -/
def pyTrueDiv (a b : PyNum) : Except PyErr PyNum :=
  if b.toQ = 0 then .error .zeroDivisionError
  else .ok (.float (a.toQ / b.toQ))

/-- `operator.floordiv`: floor division, int on ints, float otherwise. -/
def pyFloorDiv : PyNum → PyNum → Except PyErr PyNum
  | .int a, .int b =>
      if b = 0 then .error .zeroDivisionError else .ok (.int (Int.fdiv a b))
  | a, b =>
      if b.toQ = 0 then .error .zeroDivisionError
      else .ok (.float ((⌊a.toQ / b.toQ⌋ : Int) : Rat))

/-- `operator.mod`: remainder of floor division (sign of the divisor). -/
def pyMod : PyNum → PyNum → Except PyErr PyNum
  | .int a, .int b =>
      if b = 0 then .error .zeroDivisionError else .ok (.int (Int.fmod a b))
  | a, b =>
      if b.toQ = 0 then .error .zeroDivisionError
      else .ok (.float (a.toQ - b.toQ * ((⌊a.toQ / b.toQ⌋ : Int) : Rat)))

/-- `operator.pow` on a rational base and integer exponent: negative
exponents of zero raise, ints with nonnegative exponents stay int. -/
def pyPowInt (a : PyNum) (n : Int) : Except PyErr PyNum :=
  match a, n with
  | .int b, .ofNat m => .ok (.int (b ^ m))
  | .float q, .ofNat m => .ok (.float (q ^ m))
  | b, .negSucc m =>
      if b.toQ = 0 then .error .zeroDivisionError
      else .ok (.float ((b.toQ ^ (m + 1))⁻¹))

/-- `operator.pow`: an integer-valued exponent is exact; an irrational
result cannot be represented in the rational float model (no claim
exercises that case). -/
def pyPow (a b : PyNum) : Except PyErr PyNum :=
  match b with
  | .int n => pyPowInt a n
  | .float q => if q.den = 1 then pyPowInt a q.num else .error .unrepresentable

/-- One recorded operation of a `_MathExpression`: a unary step. -/
def MathOp : Type := PyNum → Except PyErr PyNum

/-- `partial(_flip(operator.add), other)` — the step recorded by
`_MathExpression.__add__`: apply `other` on the right. -/
def addStep (other : PyNum) : MathOp := fun x => pyAdd x other

/-- Step of `__radd__`: apply `other` on the left. -/
def raddStep (other : PyNum) : MathOp := fun x => pyAdd other x

/-- Step of `__sub__`. -/
def subStep (other : PyNum) : MathOp := fun x => pySub x other

/-- Step of `__rsub__`. -/
def rsubStep (other : PyNum) : MathOp := fun x => pySub other x

/-- Step of `__mul__`. -/
def mulStep (other : PyNum) : MathOp := fun x => pyMul x other

/-- Step of `__rmul__`. -/
def rmulStep (other : PyNum) : MathOp := fun x => pyMul other x

/-- Step of `__floordiv__`. -/
def floordivStep (other : PyNum) : MathOp := fun x => pyFloorDiv x other

/-- Step of `__rfloordiv__`. -/
def rfloordivStep (other : PyNum) : MathOp := fun x => pyFloorDiv other x

/-- Step of `__truediv__`. -/
def truedivStep (other : PyNum) : MathOp := fun x => pyTrueDiv x other

/-- Step of `__rtruediv__`. -/
def rtruedivStep (other : PyNum) : MathOp := fun x => pyTrueDiv other x

/-- Step of `__mod__`. -/
def modStep (other : PyNum) : MathOp := fun x => pyMod x other

/-- Step of `__rmod__`. -/
def rmodStep (other : PyNum) : MathOp := fun x => pyMod other x

/-- Step of `__pow__`. -/
def powStep (other : PyNum) : MathOp := fun x => pyPow x other

/-- Step of `__rpow__`. -/
def rpowStep (other : PyNum) : MathOp := fun x => pyPow other x

/-- `_MathExpression.__call__` on its recorded operation list:
`first_operation, *rest = self._operations` raises on an empty list
(the specification's `EmptyExpressionError`); otherwise `reduce` folds the
rest over `first_operation(number)`, left to right, each step's own error
propagating through the fold. -/
def mathCall (ops : List MathOp) (number : PyNum) : Except PyErr PyNum :=
  match ops with
  | [] => .error .emptyExpressionError
  | first :: rest =>
      rest.foldl (fun partialResult operation => partialResult.bind operation)
        (first number)

/-- Python's call protocol for `_MathExpression.__call__(self, number)`:
any argument count other than one is the specification's `ArityError`. -/
def mathCallArgs (ops : List MathOp) (args : List PyNum) : Except PyErr PyNum :=
  match args with
  | [arg] => mathCall ops arg
  | _ => .error .arityError

/-!
In-place mutation (`_MathExpression._add_operation` appends to
`self._operations` and returns `self`) is modelled with an explicit store:
instances live at addresses (indices), the instance's state is its
operation list, and each combinator returns the address of its result
together with the updated store.
-/

/-- The heap of `_MathExpression` instances: address `i` holds the
`_operations` list of instance `i`. -/
structure MathStore where
  instances : List (List MathOp)

/-- The operation list of the instance at an address. -/
def opsAt (s : MathStore) (addr : Nat) : List MathOp :=
  s.instances.getD addr []

/-- `_MathExpression.__init__`: allocate a fresh instance with an empty
operation list, returning its address. -/
def newMathExpression (s : MathStore) : Nat × MathStore :=
  (s.instances.length, ⟨s.instances ++ [[]]⟩)

/-- `_MathExpression._add_operation`: append one step to the instance's own
list and return the same instance. -/
def addOperation (s : MathStore) (addr : Nat) (op : MathOp) : Nat × MathStore :=
  (addr, ⟨s.instances.set addr (opsAt s addr ++ [op])⟩)

/-- `_MathExpression.__add__`. -/
def mathAdd (s : MathStore) (addr : Nat) (other : PyNum) : Nat × MathStore :=
  addOperation s addr (addStep other)

/-- `_MathExpression.__radd__`. -/
def mathRadd (s : MathStore) (addr : Nat) (other : PyNum) : Nat × MathStore :=
  addOperation s addr (raddStep other)

/-- `_MathExpression.__sub__`. -/
def mathSub (s : MathStore) (addr : Nat) (other : PyNum) : Nat × MathStore :=
  addOperation s addr (subStep other)

/-- `_MathExpression.__rsub__`. -/
def mathRsub (s : MathStore) (addr : Nat) (other : PyNum) : Nat × MathStore :=
  addOperation s addr (rsubStep other)

/-- `_MathExpression.__mul__`. -/
def mathMul (s : MathStore) (addr : Nat) (other : PyNum) : Nat × MathStore :=
  addOperation s addr (mulStep other)

/-- `_MathExpression.__rmul__`. -/
def mathRmul (s : MathStore) (addr : Nat) (other : PyNum) : Nat × MathStore :=
  addOperation s addr (rmulStep other)

/-- `_MathExpression.__floordiv__`. -/
def mathFloordiv (s : MathStore) (addr : Nat) (other : PyNum) : Nat × MathStore :=
  addOperation s addr (floordivStep other)

/-- `_MathExpression.__rfloordiv__`. -/
def mathRfloordiv (s : MathStore) (addr : Nat) (other : PyNum) : Nat × MathStore :=
  addOperation s addr (rfloordivStep other)

/-- `_MathExpression.__truediv__`. -/
def mathTruediv (s : MathStore) (addr : Nat) (other : PyNum) : Nat × MathStore :=
  addOperation s addr (truedivStep other)

/-- `_MathExpression.__rtruediv__`. -/
def mathRtruediv (s : MathStore) (addr : Nat) (other : PyNum) : Nat × MathStore :=
  addOperation s addr (rtruedivStep other)

/-- `_MathExpression.__mod__`. -/
def mathMod (s : MathStore) (addr : Nat) (other : PyNum) : Nat × MathStore :=
  addOperation s addr (modStep other)

/-- `_MathExpression.__rmod__`. -/
def mathRmod (s : MathStore) (addr : Nat) (other : PyNum) : Nat × MathStore :=
  addOperation s addr (rmodStep other)

/-- `_MathExpression.__pow__`. -/
def mathPow (s : MathStore) (addr : Nat) (other : PyNum) : Nat × MathStore :=
  addOperation s addr (powStep other)

/-- `_MathExpression.__rpow__`. -/
def mathRpow (s : MathStore) (addr : Nat) (other : PyNum) : Nat × MathStore :=
  addOperation s addr (rpowStep other)

/-- `_Callable.__add__(other)` = `_MathExpression() + other`: allocate a
fresh instance, then record the one step on it. -/
def callableAdd (s : MathStore) (other : PyNum) : Nat × MathStore :=
  let p := newMathExpression s
  mathAdd p.2 p.1 other

/-- `_Callable.__radd__(other)` = `other + _MathExpression()`. -/
def callableRadd (s : MathStore) (other : PyNum) : Nat × MathStore :=
  let p := newMathExpression s
  mathRadd p.2 p.1 other

/-- `_Callable.__sub__`. -/
def callableSub (s : MathStore) (other : PyNum) : Nat × MathStore :=
  let p := newMathExpression s
  mathSub p.2 p.1 other

/-- `_Callable.__rsub__`. -/
def callableRsub (s : MathStore) (other : PyNum) : Nat × MathStore :=
  let p := newMathExpression s
  mathRsub p.2 p.1 other

/-- `_Callable.__mul__`. -/
def callableMul (s : MathStore) (other : PyNum) : Nat × MathStore :=
  let p := newMathExpression s
  mathMul p.2 p.1 other

/-- `_Callable.__rmul__`. -/
def callableRmul (s : MathStore) (other : PyNum) : Nat × MathStore :=
  let p := newMathExpression s
  mathRmul p.2 p.1 other

/-- `_Callable.__floordiv__`. -/
def callableFloordiv (s : MathStore) (other : PyNum) : Nat × MathStore :=
  let p := newMathExpression s
  mathFloordiv p.2 p.1 other

/-- `_Callable.__rfloordiv__`. -/
def callableRfloordiv (s : MathStore) (other : PyNum) : Nat × MathStore :=
  let p := newMathExpression s
  mathRfloordiv p.2 p.1 other

/-- `_Callable.__truediv__`. -/
def callableTruediv (s : MathStore) (other : PyNum) : Nat × MathStore :=
  let p := newMathExpression s
  mathTruediv p.2 p.1 other

/-- `_Callable.__rtruediv__`. -/
def callableRtruediv (s : MathStore) (other : PyNum) : Nat × MathStore :=
  let p := newMathExpression s
  mathRtruediv p.2 p.1 other

/-- `_Callable.__mod__`. -/
def callableMod (s : MathStore) (other : PyNum) : Nat × MathStore :=
  let p := newMathExpression s
  mathMod p.2 p.1 other

/-- `_Callable.__rmod__`. -/
def callableRmod (s : MathStore) (other : PyNum) : Nat × MathStore :=
  let p := newMathExpression s
  mathRmod p.2 p.1 other

/-- `_Callable.__pow__`. -/
def callablePow (s : MathStore) (other : PyNum) : Nat × MathStore :=
  let p := newMathExpression s
  mathPow p.2 p.1 other

/-- `_Callable.__rpow__`. -/
def callableRpow (s : MathStore) (other : PyNum) : Nat × MathStore :=
  let p := newMathExpression s
  mathRpow p.2 p.1 other

/-- The steps the public surface can record: each arithmetic dunder of
`_Callable` and `_MathExpression` records exactly one of these. -/
inductive ArithStep : MathOp → Prop where
  | add (other : PyNum) : ArithStep (addStep other)
  | radd (other : PyNum) : ArithStep (raddStep other)
  | sub (other : PyNum) : ArithStep (subStep other)
  | rsub (other : PyNum) : ArithStep (rsubStep other)
  | mul (other : PyNum) : ArithStep (mulStep other)
  | rmul (other : PyNum) : ArithStep (rmulStep other)
  | floordiv (other : PyNum) : ArithStep (floordivStep other)
  | rfloordiv (other : PyNum) : ArithStep (rfloordivStep other)
  | truediv (other : PyNum) : ArithStep (truedivStep other)
  | rtruediv (other : PyNum) : ArithStep (rtruedivStep other)
  | mod (other : PyNum) : ArithStep (modStep other)
  | rmod (other : PyNum) : ArithStep (rmodStep other)
  | pow (other : PyNum) : ArithStep (powStep other)
  | rpow (other : PyNum) : ArithStep (rpowStep other)

/-- The operation lists reachable through the public placeholder surface: a
`_MathExpression` is created by an arithmetic dunder of `_Callable` (one
step) and extended one appended step at a time by the dunders of
`_MathExpression`. -/
inductive ReachableOps : List MathOp → Prop where
  | first {step : MathOp} : ArithStep step → ReachableOps [step]
  | extend {ops : List MathOp} {step : MathOp} :
      ReachableOps ops → ArithStep step → ReachableOps (ops ++ [step])

example : mathCall [modStep (.int 3), rtruedivStep (.int 100000),
    mulStep (.int 9)] (.int 5) = .ok (.float 450000) := by
  simp [mathCall, modStep, rtruedivStep, mulStep, pyMod, pyTrueDiv, pyMul,
    PyNum.toQ, Except.bind]
  norm_num

/-!
Concrete environments used by the theorems below.
-/

/-- An environment of objects mirroring the test class `_ImplementsAnd`:
`repr` is `hello` and `__and__` returns the length of a string argument,
declining everything else. -/
def lenAndEnv : Env := fun _ =>
  ⟨"hello",
   fun v => match v with | .str s => some (.int s.length) | _ => none,
   fun _ => none, fun _ => none, fun _ => none⟩

/-- An environment with two kinds of objects: object `0` defines only
`__rand__` (constantly `1`), every other object defines only `__and__`
(constantly `2`).  Distinct classes, so Python's `x & R` consults
`x.__and__` first. -/
def clashEnv : Env := fun i =>
  if i = 0 then
    ⟨"R", fun _ => none, fun _ => some (.int 1), fun _ => none, fun _ => none⟩
  else
    ⟨"X", fun _ => some (.int 2), fun _ => none, fun _ => none, fun _ => none⟩

/-- C5: the placeholder is the identity expression: calling it returns the
argument unchanged, its string form is exactly `_`, and its precedence
is 0. -/
theorem c5_placeholder_identity :
    ∀ (env : Env) (v : PyVal),
      Expression.call env .callable v = .ok v
      ∧ Expression.reprStr env .callable = "_"
      ∧ Expression.precedence .callable = 0 :=
  fun _ _ => ⟨rfl, rfl, rfl⟩

/-- C1: rendering a `_Chain` embeds the previous expression's string
directly when its precedence is numerically ≤ the trailing operation's, and
wraps it in parentheses otherwise; the chain built as
`(9 | placeholder) & 6 & 7` renders as `(9 | _) & 6 & 7` and the chain
built as `9 | (placeholder & 6) & 7` renders as `9 | _ & 6 & 7`. -/
theorem c1_chain_render_precedence :
    (∀ (env : Env) (p : Expression) (op : Operation),
      Expression.reprStr env (.chain p op) =
        op.asString env
          (if p.precedence ≤ op.precedence
           then p.reprStr env
           else "(" ++ p.reprStr env ++ ")"))
    ∧ (∀ env : Env,
        pyOrVE env (.int 9) .callable =
          .inr (Expression.callable.ror (.int 9))
        ∧ Expression.reprStr env
            (((Expression.callable.ror (.int 9)).and (.int 6)).and (.int 7)) =
          "(9 | _) & 6 & 7"
        ∧ pyOrVE env (.int 9)
            ((Expression.callable.and (.int 6)).and (.int 7)) =
          .inr (((Expression.callable.and (.int 6)).and (.int 7)).ror (.int 9))
        ∧ Expression.reprStr env
            (((Expression.callable.and (.int 6)).and (.int 7)).ror (.int 9)) =
          "9 | _ & 6 & 7") :=
  ⟨fun _ _ _ => rfl, fun _ => ⟨rfl, rfl, rfl, rfl⟩⟩

/-- C3: calling a chain applies the previous expression and then the
trailing operation (left-to-right composition in construction order); the
chain built as `60 & placeholder & 5 & 7` applied to `7` returns `4` and
renders as `60 & _ & 5 & 7`. -/
theorem c3_chain_eval_composition :
    (∀ (env : Env) (p : Expression) (op : Operation) (x : PyVal),
      Expression.call env (.chain p op) x = (p.call env x).bind (op.call env))
    ∧ (∀ env : Env,
        pyAndVE env (.int 60) .callable =
          .inr (Expression.callable.rand (.int 60))
        ∧ Expression.call env
            (((Expression.callable.rand (.int 60)).and (.int 5)).and (.int 7))
            (.int 7) = .ok (.int 4)
        ∧ Expression.reprStr env
            (((Expression.callable.rand (.int 60)).and (.int 5)).and (.int 7)) =
          "60 & _ & 5 & 7") :=
  ⟨fun _ _ _ _ => rfl, fun _ => ⟨rfl, rfl, rfl⟩⟩

/-- C2 counterexample: `(placeholder & R)(x)` need not equal
`R.__rand__(x)`: with `R` an object defining `__rand__` constantly `1` and
`x` an object of a different class whose `__and__` accepts everything
returning `2`, Python's replay of `x & R` consults `x.__and__` first, so
the chain call yields `2` while `R.__rand__(x)` yields `1`. -/
theorem c2_counterexample :
    (clashEnv 0).randM (.obj 1) = some (.int 1)
    ∧ Expression.call clashEnv (Expression.callable.and (.obj 0)) (.obj 1) =
        .ok (.int 2)
    ∧ Expression.call clashEnv (Expression.callable.and (.obj 0)) (.obj 1) ≠
        .ok (.int 1) :=
  ⟨rfl, rfl, fun h => by
    rw [show Expression.call clashEnv
      (Expression.callable.and (.obj 0)) (.obj 1) = .ok (.int 2) from rfl] at h
    simp at h⟩

/-- C2 (amended): dual dispatch symmetry for `&` and `|`, provided the
replayed dispatch reaches the fixed operand's implementation and it accepts
the input: when `L.__and__` declines the placeholder at construction,
`L & placeholder` builds `_Chain(placeholder, _SomethingAnd(L))`, and if
`L.__and__(x)` succeeds the chain call returns it; when the input `x`'s own
`__and__` declines `R` and `R.__rand__(x)` succeeds,
`(placeholder & R)(x) = R.__rand__(x)`; likewise for `|`; concretely, with
`repr(L) = "hello"` and `L.__and__` returning `len` on strings,
`(L & placeholder)("foo") = 3` with string form `hello & _`. -/
theorem c2_dual_dispatch_amended :
    (∀ (env : Env) (i : Nat) (x r : PyVal),
      (env i).andM .exprObj = none →
      pyAndVE env (.obj i) .callable =
        .inr (Expression.callable.rand (.obj i))
      ∧ ((env i).andM x = some r →
         Expression.call env (Expression.callable.rand (.obj i)) x = .ok r))
    ∧ (∀ (env : Env) (j : Nat) (x r : PyVal),
        andMeth env x (.obj j) = none →
        (env j).randM x = some r →
        Expression.call env (Expression.callable.and (.obj j)) x = .ok r)
    ∧ (∀ (env : Env) (i : Nat) (x r : PyVal),
        (env i).orM .exprObj = none →
        pyOrVE env (.obj i) .callable =
          .inr (Expression.callable.ror (.obj i))
        ∧ ((env i).orM x = some r →
           Expression.call env (Expression.callable.ror (.obj i)) x = .ok r))
    ∧ (∀ (env : Env) (j : Nat) (x r : PyVal),
        orMeth env x (.obj j) = none →
        (env j).rorM x = some r →
        Expression.call env (Expression.callable.or (.obj j)) x = .ok r)
    ∧ (pyAndVE lenAndEnv (.obj 0) .callable =
        .inr (Expression.callable.rand (.obj 0))
      ∧ Expression.call lenAndEnv (Expression.callable.rand (.obj 0))
          (.str "foo") = .ok (.int 3)
      ∧ Expression.reprStr lenAndEnv (Expression.callable.rand (.obj 0)) =
          "hello & _") := by
  refine ⟨?_, ?_, ?_, ?_, rfl, rfl, rfl⟩
  · intro env i x r h
    refine ⟨by simp [pyAndVE, andMeth, h], fun h2 => ?_⟩
    simp [Expression.call, Expression.rand, Except.bind, Operation.call,
      pyAnd, andMeth, h2]
  · intro env j x r h h2
    simp [Expression.call, Expression.and, Except.bind, Operation.call,
      pyAnd, h, randMeth, h2]
  · intro env i x r h
    refine ⟨by simp [pyOrVE, orMeth, h], fun h2 => ?_⟩
    simp [Expression.call, Expression.ror, Except.bind, Operation.call,
      pyOr, orMeth, h2]
  · intro env j x r h h2
    simp [Expression.call, Expression.or, Except.bind, Operation.call,
      pyOr, h, rorMeth, h2]

/-- An environment whose objects implement all four methods on integer
arguments only, each returning a distinct offset of the argument. -/
def dualEnv : Env := fun _ =>
  ⟨"d",
   fun v => match v with | .int n => some (.int (n + 1)) | _ => none,
   fun v => match v with | .int n => some (.int (n + 3)) | _ => none,
   fun v => match v with | .int n => some (.int (n + 2)) | _ => none,
   fun v => match v with | .int n => some (.int (n + 4)) | _ => none⟩

/-- C2 witness: the amended theorem applied at concrete inputs, in
`lenAndEnv` for the `&`-with-string case and in `dualEnv` for all four
operator directions. -/
theorem c2_dual_dispatch_amended_witness :
    Expression.call lenAndEnv (Expression.callable.rand (.obj 0))
      (.str "foo") = .ok (.int 3)
    ∧ Expression.call dualEnv (Expression.callable.rand (.obj 0))
        (.int 5) = .ok (.int 6)
    ∧ Expression.call dualEnv (Expression.callable.and (.obj 0))
        (.int 5) = .ok (.int 8)
    ∧ Expression.call dualEnv (Expression.callable.ror (.obj 0))
        (.int 5) = .ok (.int 7)
    ∧ Expression.call dualEnv (Expression.callable.or (.obj 0))
        (.int 5) = .ok (.int 9) := by
  refine ⟨(c2_dual_dispatch_amended.1 lenAndEnv 0 (.str "foo") (.int 3)
      rfl).2 rfl, ?_, ?_, ?_, ?_⟩
  · exact (c2_dual_dispatch_amended.1 dualEnv 0 (.int 5) (.int 6) rfl).2 rfl
  · exact c2_dual_dispatch_amended.2.1 dualEnv 0 (.int 5) (.int 8) rfl rfl
  · exact (c2_dual_dispatch_amended.2.2.1 dualEnv 0 (.int 5) (.int 7)
      rfl).2 rfl
  · exact c2_dual_dispatch_amended.2.2.2.1 dualEnv 0 (.int 5) (.int 9)
      rfl rfl

/-- The arithmetic expression `((10**5) / (_ % 3) * 9)` built through the
public surface, starting from an empty store: `10 ** 5` is evaluated by the
host to `100000` before reaching the placeholder; `_ % 3` creates the
instance via `_Callable.__mod__`; `100000 / instance` goes through
`_MathExpression.__rtruediv__` (the int declines the instance); `* 9`
through `_MathExpression.__mul__`. -/
def arithDemo : Nat × MathStore :=
  let r1 := callableMod ⟨[]⟩ (.int 3)
  let r2 := mathRtruediv r1.2 r1.1 (.int 100000)
  mathMul r2.2 r2.1 (.int 9)

/-- C4: `_MathExpression.__call__` runs the first recorded step on the raw
input and folds the remaining steps over the running result, left to right
(a singleton list is just its step; appending a step post-composes it onto
the prior result); the expression `((10**5) / (placeholder % 3) * 9)`
applied to `5` returns the float `450000`. -/
theorem c4_math_eval_fold :
    (∀ (step : MathOp) (v : PyNum), mathCall [step] v = step v)
    ∧ (∀ (ops : List MathOp) (step : MathOp) (v : PyNum), ops ≠ [] →
        mathCall (ops ++ [step]) v = (mathCall ops v).bind step)
    ∧ opsAt arithDemo.2 arithDemo.1 =
        [modStep (.int 3), rtruedivStep (.int 100000), mulStep (.int 9)]
    ∧ mathCall (opsAt arithDemo.2 arithDemo.1) (.int 5) =
        .ok (.float 450000) := by
  refine ⟨fun step v => rfl, ?_, rfl, ?_⟩
  · intro ops step v h
    match ops with
    | first :: rest => simp [mathCall, List.foldl_append]
  · show mathCall [modStep (.int 3), rtruedivStep (.int 100000),
      mulStep (.int 9)] (.int 5) = .ok (.float 450000)
    simp [mathCall, modStep, rtruedivStep, mulStep, pyMod, pyTrueDiv, pyMul,
      PyNum.toQ, Except.bind]
    norm_num

/-- C4 witness: the fold equation applied to a concrete two-step list. -/
theorem c4_math_eval_fold_witness :
    mathCall ([modStep (.int 3)] ++ [mulStep (.int 9)]) (.int 5) =
      (mathCall [modStep (.int 3)] (.int 5)).bind (mulStep (.int 9)) :=
  c4_math_eval_fold.2.1 [modStep (.int 3)] (mulStep (.int 9)) (.int 5)
    (by simp)

/-- C6: `&` / `|` chain construction never fails — the expression-side
methods are pure constructors for every operand, and the host dispatch
`value OP expression` either returns the value produced by the operand's
own method or builds the chain; a dispatch failure (`UnsupportedOperation`)
surfaces only when the chain is called with the offending input, and an
error from any link propagates through every later link uncaught. -/
theorem c6_deferred_operator_errors :
    (∀ (e : Expression) (L : PyVal),
      e.and L = Expression.chain e (.andSomething L)
      ∧ e.rand L = Expression.chain e (.somethingAnd L)
      ∧ e.or L = Expression.chain e (.orSomething L)
      ∧ e.ror L = Expression.chain e (.somethingOr L))
    ∧ (∀ (env : Env) (L : PyVal) (e : Expression),
        (∃ v, pyAndVE env L e = .inl v) ∨ pyAndVE env L e = .inr (e.rand L))
    ∧ (∀ (env : Env) (L : PyVal) (e : Expression),
        (∃ v, pyOrVE env L e = .inl v) ∨ pyOrVE env L e = .inr (e.ror L))
    ∧ (∀ (env : Env) (L x : PyVal),
        pyAnd env L x = none →
        Expression.call env (Expression.callable.rand L) x =
          .error .unsupportedOperation)
    ∧ (∀ (env : Env) (p : Expression) (op : Operation) (x : PyVal)
        (err : PyErr),
        p.call env x = .error err →
        Expression.call env (.chain p op) x = .error err) := by
  refine ⟨fun e L => ⟨rfl, rfl, rfl, rfl⟩, ?_, ?_, ?_, ?_⟩
  · intro env L e
    cases h : andMeth env L .exprObj with
    | some v => exact .inl ⟨v, by simp [pyAndVE, h]⟩
    | none => exact .inr (by simp [pyAndVE, h])
  · intro env L e
    cases h : orMeth env L .exprObj with
    | some v => exact .inl ⟨v, by simp [pyOrVE, h]⟩
    | none => exact .inr (by simp [pyOrVE, h])
  · intro env L x h
    simp [Expression.call, Expression.rand, Except.bind, Operation.call, h]
  · intro env p op x err h
    simp [Expression.call, h, Except.bind]

/-- C6 witness: a string operand declines a string input, so the chain
`"a" & placeholder` fails only at the call with `"b"`, and a further `& 1`
link propagates that error. -/
theorem c6_deferred_operator_errors_witness :
    Expression.call defaultEnv (Expression.callable.rand (.str "a"))
      (.str "b") = .error .unsupportedOperation
    ∧ Expression.call defaultEnv
        (.chain (Expression.callable.rand (.str "a")) (.andSomething (.int 1)))
        (.str "b") = .error .unsupportedOperation := by
  refine ⟨c6_deferred_operator_errors.2.2.2.1 defaultEnv (.str "a")
      (.str "b") rfl, ?_⟩
  exact c6_deferred_operator_errors.2.2.2.2 defaultEnv
    (Expression.callable.rand (.str "a")) (.andSomething (.int 1))
    (.str "b") .unsupportedOperation
    (c6_deferred_operator_errors.2.2.2.1 defaultEnv (.str "a") (.str "b") rfl)

/-- C7: calling a `_MathExpression` with zero recorded steps is the
`EmptyExpressionError`, and every operation list reachable through the
public placeholder surface is non-empty. -/
theorem c7_empty_expression_error :
    (∀ v : PyNum, mathCall [] v = .error .emptyExpressionError)
    ∧ (∀ ops : List MathOp, ReachableOps ops → ops ≠ []) := by
  refine ⟨fun v => rfl, ?_⟩
  intro ops h
  induction h with
  | first _ => simp
  | extend _ _ _ => simp

/-- C7 witness: the empty call errors at a concrete input, and the
operation list of `_ + 2` is reachable and non-empty. -/
theorem c7_empty_expression_error_witness :
    mathCall [] (.int 0) = .error .emptyExpressionError
    ∧ [addStep (.int 2)] ≠ ([] : List MathOp) :=
  ⟨c7_empty_expression_error.1 (.int 0),
   c7_empty_expression_error.2 [addStep (.int 2)]
     (.first (.add (.int 2)))⟩

/-- C8: `_add_operation` mutates in place: it returns the same instance
(the same address, allocating nothing), the instance's operation list
afterwards is the previous list with exactly the one step appended, and
every other instance is untouched. -/
theorem c8_add_operation_in_place :
    ∀ (s : MathStore) (addr : Nat) (op : MathOp),
      addr < s.instances.length →
      (addOperation s addr op).1 = addr
      ∧ (addOperation s addr op).2.instances.length = s.instances.length
      ∧ opsAt (addOperation s addr op).2 addr = opsAt s addr ++ [op]
      ∧ ∀ j : Nat, j ≠ addr →
          opsAt (addOperation s addr op).2 j = opsAt s j := by
  intro s addr op h
  refine ⟨rfl, by simp [addOperation], ?_, ?_⟩
  · simp [opsAt, addOperation, List.getD_eq_getElem?_getD,
      List.getElem?_set_self h]
  · intro j hj
    simp [opsAt, addOperation, List.getD_eq_getElem?_getD,
      List.getElem?_set_ne (Ne.symm hj)]

/-- C8 witness: appending to instance 0 of a two-instance store leaves
instance 1 untouched and appends exactly one step. -/
theorem c8_add_operation_in_place_witness :
    (addOperation ⟨[[addStep (.int 1)], []]⟩ 0 (mulStep (.int 2))).1 = 0
    ∧ opsAt (addOperation ⟨[[addStep (.int 1)], []]⟩ 0
        (mulStep (.int 2))).2 0 = [addStep (.int 1)] ++ [mulStep (.int 2)]
    ∧ opsAt (addOperation ⟨[[addStep (.int 1)], []]⟩ 0
        (mulStep (.int 2))).2 1 =
      opsAt ⟨[[addStep (.int 1)], []]⟩ 1 := by
  have h := c8_add_operation_in_place ⟨[[addStep (.int 1)], []]⟩ 0
    (mulStep (.int 2)) (by simp)
  exact ⟨h.1, h.2.2.1, h.2.2.2 1 (by simp)⟩

/-- C9: arity is enforced: calling any expression object — the placeholder,
any chain, or any `_MathExpression` — with an argument count other than one
is the `ArityError`, and a one-argument call is the ordinary unary call. -/
theorem c9_arity_enforced :
    (∀ (env : Env) (e : Expression) (args : List PyVal),
      args.length ≠ 1 → e.callArgs env args = .error .arityError)
    ∧ (∀ (env : Env) (e : Expression) (a : PyVal),
        e.callArgs env [a] = e.call env a)
    ∧ (∀ (ops : List MathOp) (args : List PyNum),
        args.length ≠ 1 → mathCallArgs ops args = .error .arityError)
    ∧ (∀ (ops : List MathOp) (a : PyNum),
        mathCallArgs ops [a] = mathCall ops a) := by
  refine ⟨?_, fun _ _ _ => rfl, ?_, fun _ _ => rfl⟩
  · intro env e args h
    match args with
    | [] => rfl
    | [a] => exact absurd rfl h
    | a :: b :: t => rfl
  · intro ops args h
    match args with
    | [] => rfl
    | [a] => exact absurd rfl h
    | a :: b :: t => rfl

/-- C9 witness: zero- and two-argument calls of the placeholder and of a
one-step `_MathExpression` are rejected. -/
theorem c9_arity_enforced_witness :
    Expression.callArgs defaultEnv .callable [] = .error .arityError
    ∧ Expression.callArgs defaultEnv .callable [.int 1, .int 2] =
        .error .arityError
    ∧ mathCallArgs [addStep (.int 2)] [] = .error .arityError
    ∧ mathCallArgs [addStep (.int 2)] [.int 1, .int 2] =
        .error .arityError :=
  ⟨c9_arity_enforced.1 defaultEnv .callable [] (by decide),
   c9_arity_enforced.1 defaultEnv .callable [.int 1, .int 2] (by decide),
   c9_arity_enforced.2.2.1 [addStep (.int 2)] [] (by decide),
   c9_arity_enforced.2.2.1 [addStep (.int 2)] [.int 1, .int 2] (by decide)⟩

/-- Every arithmetic dunder of `_Callable` is `_MathExpression() ⋆ other`:
allocate fresh, then record one step.  This helper characterizes that
shared shape: the returned address is the fresh one, it carries exactly the
one step, the store grew by one instance, and no existing instance
changed. -/
theorem newInstanceOneStep (s : MathStore) (op : MathOp) :
    (addOperation (newMathExpression s).2 (newMathExpression s).1 op).1 =
      s.instances.length
    ∧ opsAt (addOperation (newMathExpression s).2
        (newMathExpression s).1 op).2 s.instances.length = [op]
    ∧ (addOperation (newMathExpression s).2
        (newMathExpression s).1 op).2.instances.length =
      s.instances.length + 1
    ∧ ∀ j : Nat, j < s.instances.length →
        opsAt (addOperation (newMathExpression s).2
          (newMathExpression s).1 op).2 j = opsAt s j := by
  refine ⟨rfl, ?_, by simp [addOperation, newMathExpression], ?_⟩
  · have hlen : s.instances.length < (s.instances ++ [[]]).length := by simp
    simp [opsAt, addOperation, newMathExpression,
      List.getD_eq_getElem?_getD, List.getElem?_set_self hlen]
  · intro j hj
    have hne : j ≠ s.instances.length := Nat.ne_of_lt hj
    simp [opsAt, addOperation, newMathExpression,
      List.getD_eq_getElem?_getD, List.getElem?_set_ne (Ne.symm hne),
      List.getElem?_append_left hj]

/-- C10: every arithmetic dunder of `_Callable` builds a brand-new
`_MathExpression` holding exactly one recorded step; creation leaves every
existing instance untouched (the placeholder itself carries no arithmetic
state); and two expressions started from the placeholder (here `_ + o1` and
`o2 - _`) live at different addresses, so appending a further step to the
second changes neither the first one's operation list nor its call
results. -/
theorem c10_placeholder_arith_fresh :
    (∀ (s : MathStore) (other : PyNum),
      ((callableAdd s other).1 = s.instances.length
        ∧ opsAt (callableAdd s other).2 (callableAdd s other).1 =
            [addStep other])
      ∧ ((callableRadd s other).1 = s.instances.length
        ∧ opsAt (callableRadd s other).2 (callableRadd s other).1 =
            [raddStep other])
      ∧ ((callableSub s other).1 = s.instances.length
        ∧ opsAt (callableSub s other).2 (callableSub s other).1 =
            [subStep other])
      ∧ ((callableRsub s other).1 = s.instances.length
        ∧ opsAt (callableRsub s other).2 (callableRsub s other).1 =
            [rsubStep other])
      ∧ ((callableMul s other).1 = s.instances.length
        ∧ opsAt (callableMul s other).2 (callableMul s other).1 =
            [mulStep other])
      ∧ ((callableRmul s other).1 = s.instances.length
        ∧ opsAt (callableRmul s other).2 (callableRmul s other).1 =
            [rmulStep other])
      ∧ ((callableFloordiv s other).1 = s.instances.length
        ∧ opsAt (callableFloordiv s other).2 (callableFloordiv s other).1 =
            [floordivStep other])
      ∧ ((callableRfloordiv s other).1 = s.instances.length
        ∧ opsAt (callableRfloordiv s other).2
            (callableRfloordiv s other).1 = [rfloordivStep other])
      ∧ ((callableTruediv s other).1 = s.instances.length
        ∧ opsAt (callableTruediv s other).2 (callableTruediv s other).1 =
            [truedivStep other])
      ∧ ((callableRtruediv s other).1 = s.instances.length
        ∧ opsAt (callableRtruediv s other).2 (callableRtruediv s other).1 =
            [rtruedivStep other])
      ∧ ((callableMod s other).1 = s.instances.length
        ∧ opsAt (callableMod s other).2 (callableMod s other).1 =
            [modStep other])
      ∧ ((callableRmod s other).1 = s.instances.length
        ∧ opsAt (callableRmod s other).2 (callableRmod s other).1 =
            [rmodStep other])
      ∧ ((callablePow s other).1 = s.instances.length
        ∧ opsAt (callablePow s other).2 (callablePow s other).1 =
            [powStep other])
      ∧ ((callableRpow s other).1 = s.instances.length
        ∧ opsAt (callableRpow s other).2 (callableRpow s other).1 =
            [rpowStep other]))
    ∧ (∀ (s : MathStore) (op : MathOp) (j : Nat), j < s.instances.length →
        opsAt (addOperation (newMathExpression s).2
          (newMathExpression s).1 op).2 j = opsAt s j)
    ∧ (∀ (s : MathStore) (o1 o2 : PyNum),
        (callableAdd s o1).1 ≠ (callableRsub (callableAdd s o1).2 o2).1
        ∧ ∀ (op : MathOp) (v : PyNum),
            opsAt (addOperation (callableRsub (callableAdd s o1).2 o2).2
                (callableRsub (callableAdd s o1).2 o2).1 op).2
              (callableAdd s o1).1 =
            opsAt (callableRsub (callableAdd s o1).2 o2).2
              (callableAdd s o1).1
            ∧ mathCall (opsAt (addOperation (callableRsub
                  (callableAdd s o1).2 o2).2
                  (callableRsub (callableAdd s o1).2 o2).1 op).2
                (callableAdd s o1).1) v =
              mathCall (opsAt (callableRsub (callableAdd s o1).2 o2).2
                (callableAdd s o1).1) v) := by
  refine ⟨?_, fun s op j hj => (newInstanceOneStep s op).2.2.2 j hj, ?_⟩
  · intro s other
    exact ⟨⟨(newInstanceOneStep s (addStep other)).1,
        (newInstanceOneStep s (addStep other)).2.1⟩,
      ⟨(newInstanceOneStep s (raddStep other)).1,
        (newInstanceOneStep s (raddStep other)).2.1⟩,
      ⟨(newInstanceOneStep s (subStep other)).1,
        (newInstanceOneStep s (subStep other)).2.1⟩,
      ⟨(newInstanceOneStep s (rsubStep other)).1,
        (newInstanceOneStep s (rsubStep other)).2.1⟩,
      ⟨(newInstanceOneStep s (mulStep other)).1,
        (newInstanceOneStep s (mulStep other)).2.1⟩,
      ⟨(newInstanceOneStep s (rmulStep other)).1,
        (newInstanceOneStep s (rmulStep other)).2.1⟩,
      ⟨(newInstanceOneStep s (floordivStep other)).1,
        (newInstanceOneStep s (floordivStep other)).2.1⟩,
      ⟨(newInstanceOneStep s (rfloordivStep other)).1,
        (newInstanceOneStep s (rfloordivStep other)).2.1⟩,
      ⟨(newInstanceOneStep s (truedivStep other)).1,
        (newInstanceOneStep s (truedivStep other)).2.1⟩,
      ⟨(newInstanceOneStep s (rtruedivStep other)).1,
        (newInstanceOneStep s (rtruedivStep other)).2.1⟩,
      ⟨(newInstanceOneStep s (modStep other)).1,
        (newInstanceOneStep s (modStep other)).2.1⟩,
      ⟨(newInstanceOneStep s (rmodStep other)).1,
        (newInstanceOneStep s (rmodStep other)).2.1⟩,
      ⟨(newInstanceOneStep s (powStep other)).1,
        (newInstanceOneStep s (powStep other)).2.1⟩,
      ⟨(newInstanceOneStep s (rpowStep other)).1,
        (newInstanceOneStep s (rpowStep other)).2.1⟩⟩
  · intro s o1 o2
    have haddr2 : (callableRsub (callableAdd s o1).2 o2).1 =
        s.instances.length + 1 := by
      simp [callableRsub, mathRsub, callableAdd, mathAdd, addOperation,
        newMathExpression]
    have hne : (callableAdd s o1).1 ≠
        (callableRsub (callableAdd s o1).2 o2).1 := by
      rw [haddr2]
      show s.instances.length ≠ s.instances.length + 1
      omega
    refine ⟨hne, fun op v => ?_⟩
    have hframe : opsAt (addOperation (callableRsub (callableAdd s o1).2
          o2).2 (callableRsub (callableAdd s o1).2 o2).1 op).2
        (callableAdd s o1).1 =
        opsAt (callableRsub (callableAdd s o1).2 o2).2
          (callableAdd s o1).1 := by
      simp only [opsAt, addOperation, List.getD_eq_getElem?_getD]
      rw [List.getElem?_set_ne (Ne.symm hne)]
    exact ⟨hframe, by rw [hframe]⟩

/-- C10 witness: from the empty store, `_ + 2` lives at address 0 with the
single step of `+ 2`, `3 - _` then lives at address 1, and appending `* 9`
to the second leaves the first's operation list intact. -/
theorem c10_placeholder_arith_fresh_witness :
    ((callableAdd ⟨[]⟩ (.int 2)).1 = 0
      ∧ opsAt (callableAdd ⟨[]⟩ (.int 2)).2 (callableAdd ⟨[]⟩ (.int 2)).1 =
          [addStep (.int 2)])
    ∧ opsAt (addOperation (newMathExpression ⟨[[addStep (.int 2)]]⟩).2
        (newMathExpression ⟨[[addStep (.int 2)]]⟩).1 (mulStep (.int 9))).2 0 =
      opsAt ⟨[[addStep (.int 2)]]⟩ 0
    ∧ (callableAdd ⟨[]⟩ (.int 2)).1 ≠
        (callableRsub (callableAdd ⟨[]⟩ (.int 2)).2 (.int 3)).1
    ∧ opsAt (addOperation (callableRsub (callableAdd ⟨[]⟩ (.int 2)).2
          (.int 3)).2 (callableRsub (callableAdd ⟨[]⟩ (.int 2)).2
          (.int 3)).1 (mulStep (.int 9))).2
        (callableAdd ⟨[]⟩ (.int 2)).1 =
      opsAt (callableRsub (callableAdd ⟨[]⟩ (.int 2)).2 (.int 3)).2
        (callableAdd ⟨[]⟩ (.int 2)).1 :=
  ⟨(c10_placeholder_arith_fresh.1 ⟨[]⟩ (.int 2)).1,
   c10_placeholder_arith_fresh.2.1 ⟨[[addStep (.int 2)]]⟩
     (mulStep (.int 9)) 0 (by simp),
   (c10_placeholder_arith_fresh.2.2 ⟨[]⟩ (.int 2) (.int 3)).1,
   ((c10_placeholder_arith_fresh.2.2 ⟨[]⟩ (.int 2) (.int 3)).2
     (mulStep (.int 9)) (.int 0)).1⟩
